import Mathlib

/-!
Shallow embedding of
`tensorflow_model_optimization/python/core/quantization/keras/collaborative_optimizations/cluster_preserve/cluster_utils.py`.

The module has three functions:
  * `_type_model`            (lines 21-41)  — model-shape classifier,
  * `_get_clustered_weights` (lines 44-59)  — weight materializer,
  * `strip_clustering_cqat`  (lines 62-161) — orchestrator with the nested
    per-layer transform `_strip_clustering_ops` (lines 87-139).

Tensors are modelled as a shape (list of dimension sizes) together with the
row-major flattened data; element values are integers (no arithmetic is ever
performed on weight values, they are only selected and moved, so the element
type is irrelevant to the code's behaviour).  TensorFlow variables are mutable
objects; we model the heap as a list of variables (`Store`) addressed by
`VarId`, so object identity and in-place assignment are explicit.  Python
exceptions become an `Except PyErr` result.
-/

/-- A tensor: static shape plus row-major flattened data. -/
structure Tensor where
  shape : List Nat
  data : List Int
deriving DecidableEq, Repr

/-- Substring test on character lists: does `pat` occur at the head of `s`? -/
def leadsWith : List Char → List Char → Bool
  | [], _ => true
  | _ :: _, [] => false
  | a :: as, b :: bs => a == b && leadsWith as bs

/-- Does `pat` occur anywhere in `s`? -/
def hasSubstrAux (pat : List Char) : List Char → Bool
  | [] => leadsWith pat []
  | c :: rest => leadsWith pat (c :: rest) || hasSubstrAux pat rest

/-- Python's `pat in s` on strings: substring containment. -/
def strContains (s pat : String) : Bool :=
  hasSubstrAux pat.data s.data

/-- Python exceptions that the module can raise, one constructor per `raise`
site (plus the TensorFlow op failures and the implicit `UnboundLocalError`):
  * `invalidInputType`      — `ValueError('Expected to_strip to be a ...')`, line 83;
  * `missingClusteringState`— `ValueError('Expected layer to stripped to contain clustering nodes')`, line 112;
  * `unsupportedInputType`  — `ValueError(' Strip clustering cannot be applied. ...')`, line 158;
  * `unboundLocal`          — Python `UnboundLocalError` when a local name is
    read before any loop iteration assigned it;
  * `tfOpError`             — eager-mode TensorFlow op failure (out-of-range
    `tf.gather` index, size-mismatched `tf.reshape`,
    shape-mismatched `Variable.assign`). -/
inductive PyErr where
  | invalidInputType (got : String)
  | missingClusteringState
  | unsupportedInputType (got : String)
  | unboundLocal (name : String)
  | tfOpError
deriving DecidableEq, Repr

/-- `tf.gather(params, indices)` for a 1-dimensional `params` (the centroid
sequence is 1-dimensional): pick `params[i]` for each index, failing on an
out-of-range or negative index as eager TensorFlow does. -/
def tfGather (params : List Int) : List Int → Except PyErr (List Int)
  | [] => .ok []
  | i :: rest =>
    match (if 0 ≤ i then params.get? i.toNat else none), tfGather params rest with
    | some v, .ok vs => .ok (v :: vs)
    | _, _ => .error .tfOpError

/-- `tf.reshape(t, shape=(-1,))`: flatten, the single dimension is inferred. -/
def tfFlatten (t : Tensor) : Tensor :=
  { shape := [t.data.length], data := t.data }

/-- `tf.reshape(t, shape)` with an explicit target shape: fails unless the
element count matches. -/
def tfReshape (t : Tensor) (shape : List Nat) : Except PyErr Tensor :=
  if t.data.length = shape.prod then .ok { shape := shape, data := t.data }
  else .error .tfOpError

/-- `_get_clustered_weights(cluster_indices, cluster_centroids)` (lines 44-59):

    return tf.reshape(
        tf.gather(cluster_centroids,
                  tf.reshape(cluster_indices, shape=(-1,))),
        shape=cluster_indices.shape)

`cluster_centroids` is the 1-dimensional centroid sequence, so `tf.gather`
selects scalar entries of its data. -/
def getClusteredWeights (cluster_indices cluster_centroids : Tensor) :
    Except PyErr Tensor := do
  let flat := tfFlatten cluster_indices
  let gathered ← tfGather cluster_centroids.data flat.data
  tfReshape { shape := [gathered.length], data := gathered } cluster_indices.shape

/-- A TensorFlow variable: a name and a current tensor value. -/
structure Var where
  name : String
  value : Tensor
deriving DecidableEq, Repr

/-- Variables are mutable Python objects; layers hold references to them.  The
heap of variable objects is a list and a reference (`VarId`) is a position in
it. -/
abbrev VarId := Nat

/-- The heap of variable objects. -/
abbrev Store := List Var

/-- Dereference a variable.  Python references always point at a live object;
the default is never reached for the ids a layer actually holds. -/
def Store.read (st : Store) (i : VarId) : Var :=
  st.getD i { name := "", value := { shape := [], data := [] } }

/-- `Variable.assign(t)` on the variable at `i`: eager TensorFlow requires the
new value's shape to match the variable's shape, then overwrites the value in
place (same object, same name). -/
def Store.assign (st : Store) (i : VarId) (t : Tensor) : Except PyErr Store :=
  if (st.read i).value.shape = t.shape then
    .ok (st.set i { st.read i with value := t })
  else .error .tfOpError

/-- A (non-Model) Keras layer object as `_strip_clustering_ops` sees it:
  * `innerName = some n` models `hasattr(layer, 'layer')` with
    `layer.layer.name == n` (the quantization-aware wrapper case);
    `none` models a layer without a `layer` attribute;
  * `innerIsConv2D` / `innerIsDense` model
    `isinstance(layer.layer, tf.keras.layers.Conv2D / Dense)`;
  * `trainableWeights` / `nonTrainableWeights` model the
    `_trainable_weights` / `_non_trainable_weights` attributes;
  * `weights` models the derived `layer.weights` full weight list (in Keras it
    aggregates the wrapper's and the inner layer's variables; here it is kept
    as the list of references the property would return);
  * `lid` is the Python object identity and `quantState` stands for all the
    wrapper's other (quantization bookkeeping) attributes, which the code
    never touches. -/
structure WLayer where
  lid : Nat
  innerName : Option String
  innerIsConv2D : Bool
  innerIsDense : Bool
  trainableWeights : List VarId
  nonTrainableWeights : List VarId
  weights : List VarId
  quantState : Nat
deriving DecidableEq, Repr

/-- The Python loop

    for v in vars:
      if pat in v.name:
        x = v

leaves `x` bound to the *last* matching element, and unbound (`none`) when no
element matches. -/
def lastMatch (st : Store) (pat : String) (vars : List VarId) : Option VarId :=
  vars.foldl (fun acc i => if strContains (st.read i).name pat then some i else acc) none

/-- Line 111's `clst_indices is None or clst_centroids is None`: a local that
was bound by the loop holds a TensorFlow variable object, which is never
Python `None`. -/
def isNoneVar (_ : VarId) : Bool := false

/-- The loop of lines 118-120:

    for i in range(len(layer.weights)):
      if 'kernel:0' in layer.weights[i].name:
        layer.weights[i].assign(clst_weights)

Every weight whose name contains `'kernel:0'` is assigned the clustered
tensor, in list order. -/
def assignKernels (st : Store) (t : Tensor) : List VarId → Except PyErr Store
  | [] => .ok st
  | i :: rest =>
    if strContains (st.read i).name "kernel:0" then
      match st.assign i t with
      | .ok st' => assignKernels st' t rest
      | .error e => .error e
    else assignKernels st t rest

/-- The body of `_strip_clustering_ops` for a layer that is *not* itself a
`tf.keras.Model` (lines 100-139; the `isinstance(layer, tf.keras.Model)`
branch of lines 88-92 is handled by `stripOps` below).  Returns the (possibly
mutated) layer together with the updated variable heap. -/
def stripLayerOps (st : Store) (layer : WLayer) : Except PyErr (WLayer × Store) :=
  match layer.innerName with
  | none => .ok (layer, st)      -- no `layer` attribute: fall through, return layer
  | some innerNm =>
    if strContains innerNm "depthwise" then .ok (layer, st)
    else if layer.innerIsConv2D || layer.innerIsDense then
      -- lines 105-110: the two scanning loops bind the *last* match, if any
      match lastMatch st "pulling_indices_tf" layer.nonTrainableWeights,
            lastMatch st "cluster_centroids_tf" layer.trainableWeights with
      | none, _ => .error (.unboundLocal "clst_indices")
      | some _, none => .error (.unboundLocal "clst_centroids")
      | some clst_indices, some clst_centroids =>
        -- line 111: both locals hold variable objects, never `None`
        if isNoneVar clst_indices || isNoneVar clst_centroids then
          .error .missingClusteringState
        else
          match getClusteredWeights (st.read clst_indices).value
                  (st.read clst_centroids).value with
          | .error e => .error e
          | .ok clst_weights =>
            match assignKernels st clst_weights layer.weights with
            | .error e => .error e
            | .ok st' =>
              -- lines 124-137: rebuild the two collections without the
              -- clustering-specific variables
              let newTrainable := layer.trainableWeights.filter fun v =>
                !(strContains (st'.read v).name "cluster_centroids_tf" ||
                  strContains (st'.read v).name "ori_weights_vars_tf")
              let newNonTrainable := layer.nonTrainableWeights.filter fun v =>
                !(strContains (st'.read v).name "pulling_indices_tf")
              .ok ({ layer with trainableWeights := newTrainable,
                                nonTrainableWeights := newNonTrainable }, st')
    else .ok (layer, st)

/-- A layer as visited by the clone traversal: either a plain layer or a
nested `tf.keras.Model`, which `clone_model` rebuilds recursively. -/
inductive KLayer where
  | plain (l : WLayer)
  | model (layers : List KLayer)
deriving Repr

mutual

/-- Full `_strip_clustering_ops` (lines 87-139): a nested model is rebuilt by
`tf.keras.models.clone_model` with `_strip_clustering_ops` as the clone
function (a fresh model object whose layers are the transform's results); any
other layer goes through `stripLayerOps`. -/
def stripOps (st : Store) : KLayer → Except PyErr (KLayer × Store)
  | .plain l =>
    match stripLayerOps st l with
    | .ok (l', st') => .ok (.plain l', st')
    | .error e => .error e
  | .model layers =>
    match stripOpsList st layers with
    | .ok (layers', st') => .ok (.model layers', st')
    | .error e => .error e

/-- `clone_model`'s traversal: apply the clone function to each layer in
order, threading the variable heap. -/
def stripOpsList (st : Store) : List KLayer → Except PyErr (List KLayer × Store)
  | [] => .ok ([], st)
  | l :: rest =>
    match stripOps st l with
    | .ok (l', st') =>
      match stripOpsList st' rest with
      | .ok (rest', st'') => .ok (l' :: rest', st'')
      | .error e => .error e
    | .error e => .error e

end

/-- The object a subclassed model's `.model` attribute refers to: it owns the
`_self_tracked_trackables` list; `oid` is its Python object identity. -/
structure SubObj where
  oid : Nat
  selfTrackedTrackables : List KLayer
deriving Repr

/-- An arbitrary Python object handed to `strip_clustering_cqat`:
  * `isModel` / `isLayer` / `isSequential` model the `isinstance` tests
    against `tf.keras.Model`, `tf.keras.layers.Layer`, `tf.keras.Sequential`
    (in Keras, `Sequential` subclasses `Model` subclasses `Layer`, so a
    realizable object satisfies `isSequential → isModel → isLayer`;
    the theorems below take those facts as hypotheses where they matter);
  * `isGraphNetwork` models the `_is_graph_network` attribute;
  * `className` models `type(obj).__name__` / the object's rendering in an
    error message; `oid` its Python identity;
  * `layers` is the layer graph `clone_model` traverses when the object is a
    sequential/functional model;
  * `selfLayer` is the object itself viewed as a layer (bare-layer path);
  * `modelAttr` is the object's `.model` attribute (subclassed path). -/
structure TopObj where
  oid : Nat
  className : String
  isModel : Bool
  isLayer : Bool
  isSequential : Bool
  isGraphNetwork : Bool
  layers : List KLayer
  selfLayer : WLayer
  modelAttr : SubObj
deriving Repr

/-- `_type_model(model)` (lines 21-41): the triple
`(is_sequential_or_functional, is_keras_layer, is_subclassed_model)`. -/
def typeModel (model : TopObj) : Bool × Bool × Bool :=
  (model.isModel && (model.isSequential || model.isGraphNetwork),
   model.isLayer && !model.isModel,
   model.isModel && !model.isGraphNetwork)

/-- What `strip_clustering_cqat` returns on success:
  * `.model layers'` — a fresh model built by `clone_model` over the layer
    graph (sequential/functional path, line 146);
  * `.layer l'`      — the transformed bare layer itself (line 150);
  * `.subModel m`    — the object `to_strip.model`, its tracked list mutated
    (line 156);
  * `.pyNone`        — Python's implicit `return None` when the redundant
    `isinstance` check on line 149 were to fail (unreachable for real
    objects). -/
inductive StripResult where
  | model (layers : List KLayer)
  | layer (l : WLayer)
  | subModel (m : SubObj)
  | pyNone
deriving Repr

/-- `strip_clustering_cqat(to_strip)` (lines 62-161). -/
def strip_clustering_cqat (st : Store) (to_strip : TopObj) :
    Except PyErr (StripResult × Store) :=
  -- lines 81-85
  if !to_strip.isModel && !to_strip.isLayer then
    .error (.invalidInputType to_strip.className)
  else
    -- lines 141-142
    let r := typeModel to_strip
    let is_sequential_or_functional := r.1
    let is_keras_layer := r.2.1
    let is_subclassed_model := r.2.2
    if is_sequential_or_functional then
      -- lines 145-147: clone with `_strip_clustering_ops` as clone function
      match stripOpsList st to_strip.layers with
      | .ok (layers', st') => .ok (.model layers', st')
      | .error e => .error e
    else if is_keras_layer then
      -- lines 148-150; `is_keras_layer` already rules out `tf.keras.Model`,
      -- so `_strip_clustering_ops` takes its non-model branch
      if to_strip.isLayer then
        match stripLayerOps st to_strip.selfLayer with
        | .ok (l', st') => .ok (.layer l', st')
        | .error e => .error e
      else .ok (.pyNone, st)
    else if is_subclassed_model then
      -- lines 151-156: mutate `to_strip.model._self_tracked_trackables`
      -- entrywise and return `to_strip.model`
      match stripOpsList st to_strip.modelAttr.selfTrackedTrackables with
      | .ok (tracked', st') =>
        .ok (.subModel { oid := to_strip.modelAttr.oid,
                         selfTrackedTrackables := tracked' }, st')
      | .error e => .error e
    else
      -- lines 157-161
      .error (.unsupportedInputType to_strip.className)

/-! ## Concrete fixtures

A small CQAT-trained dense layer used by the witness and counterexample
theorems: a kernel, a centroid variable, an index variable and an
original-weights variable, wrapped in a quantization-aware wrapper. -/

def egKernelVar : Var :=
  { name := "quant_dense/dense/kernel:0",
    value := { shape := [2, 2], data := [0, 0, 0, 0] } }

def egCentroidsVar : Var :=
  { name := "quant_dense/cluster_centroids_tf:0",
    value := { shape := [3], data := [10, 20, 30] } }

def egIndicesVar : Var :=
  { name := "quant_dense/pulling_indices_tf:0",
    value := { shape := [2, 2], data := [0, 1, 2, 0] } }

def egOriVar : Var :=
  { name := "quant_dense/ori_weights_vars_tf:0",
    value := { shape := [2, 2], data := [7, 7, 7, 7] } }

def egStore : Store := [egKernelVar, egCentroidsVar, egIndicesVar, egOriVar]

def egLayer : WLayer :=
  { lid := 1, innerName := some "dense", innerIsConv2D := false,
    innerIsDense := true, trainableWeights := [0, 1, 3],
    nonTrainableWeights := [2], weights := [0, 1, 2, 3], quantState := 9 }

/-- The dense weight the materializer rebuilds from `egIndicesVar` and
`egCentroidsVar`. -/
def egTensor : Tensor := { shape := [2, 2], data := [10, 20, 30, 10] }

/-- The heap after stripping `egLayer`: only the kernel's value changed. -/
def egStore' : Store :=
  [{ egKernelVar with value := egTensor }, egCentroidsVar, egIndicesVar, egOriVar]

/-- `egLayer` after stripping: the centroid/original-weight references are
gone from the trainable collection and the index reference from the
non-trainable collection. -/
def egLayer' : WLayer :=
  { egLayer with trainableWeights := [0], nonTrainableWeights := [] }

/-- A layer with no `layer` attribute and no variables. -/
def plainLayer : WLayer :=
  { lid := 2, innerName := none, innerIsConv2D := false, innerIsDense := false,
    trainableWeights := [], nonTrainableWeights := [], weights := [],
    quantState := 0 }

/-- An unwrapped layer that nevertheless holds a centroid-named variable
(reference 0 in `cexStore`). -/
def cexLayer : WLayer :=
  { lid := 3, innerName := none, innerIsConv2D := false, innerIsDense := false,
    trainableWeights := [0], nonTrainableWeights := [], weights := [0],
    quantState := 0 }

def cexStore : Store := [egCentroidsVar]

/-- `cexLayer` as a bare-layer input to `strip_clustering_cqat`. -/
def cexObj : TopObj :=
  { oid := 4, className := "CustomLayer", isModel := false, isLayer := true,
    isSequential := false, isGraphNetwork := false, layers := [],
    selfLayer := cexLayer, modelAttr := { oid := 0, selfTrackedTrackables := [] } }

/-- A wrapped non-depthwise dense layer whose trainable collection holds no
`cluster_centroids_tf` variable (only the kernel). -/
def cbLayer : WLayer :=
  { lid := 5, innerName := some "dense", innerIsConv2D := false,
    innerIsDense := true, trainableWeights := [0], nonTrainableWeights := [2],
    weights := [0, 2], quantState := 0 }

/-- A wrapped non-depthwise dense layer whose non-trainable collection holds
no `pulling_indices_tf` variable. -/
def cbLayerNoIdx : WLayer :=
  { cbLayer with trainableWeights := [0, 1], nonTrainableWeights := [] }

/-- An unbuilt `Sequential` model: `isinstance(m, tf.keras.Sequential)` holds
but `m._is_graph_network` is still `False` (Keras sets it only once the model
is built with a known input shape). -/
def seqUnbuilt : TopObj :=
  { oid := 6, className := "Sequential", isModel := true, isLayer := true,
    isSequential := true, isGraphNetwork := false, layers := [],
    selfLayer := plainLayer, modelAttr := { oid := 0, selfTrackedTrackables := [] } }

/-- A subclassed model object: its `.model` attribute is a different object
(identity 42) owning one tracked sublayer. -/
def subclassedObj : TopObj :=
  { oid := 11, className := "MyModel", isModel := true, isLayer := true,
    isSequential := false, isGraphNetwork := false, layers := [],
    selfLayer := plainLayer,
    modelAttr := { oid := 42, selfTrackedTrackables := [.plain plainLayer] } }

/-- A second kernel-named variable, to exercise the assignment loop hitting
every `kernel:0` match. -/
def c10KernelB : Var :=
  { name := "other/kernel:0", value := { shape := [2, 2], data := [1, 1, 1, 1] } }

/-- An earlier centroid variable with the same marker but different values. -/
def c10CentroidsOld : Var :=
  { name := "stale/cluster_centroids_tf:0", value := { shape := [3], data := [1, 2, 3] } }

def c10Store : Store :=
  [egKernelVar, c10CentroidsOld, egCentroidsVar, egIndicesVar, c10KernelB]

/-- A wrapped dense layer with two centroid-marked trainable variables
(references 1 and 2, in that iteration order) and two kernel-named entries in
its full weight list (references 0 and 4). -/
def c10Layer : WLayer :=
  { lid := 12, innerName := some "dense", innerIsConv2D := false,
    innerIsDense := true, trainableWeights := [0, 1, 2],
    nonTrainableWeights := [3], weights := [0, 1, 2, 3, 4], quantState := 0 }

/-- The heap after stripping `c10Layer`: both kernel-named variables hold the
tensor materialized from the *last* centroid variable (reference 2). -/
def c10Store' : Store :=
  [{ egKernelVar with value := egTensor }, c10CentroidsOld, egCentroidsVar,
   egIndicesVar, { c10KernelB with value := egTensor }]

def c10Layer' : WLayer :=
  { c10Layer with trainableWeights := [0], nonTrainableWeights := [] }

/-- Does a layer still hold a variable carrying one of the three clustering
markers in its trainable/non-trainable collections? -/
def layerRetainsClusterVars (st : Store) (l : WLayer) : Bool :=
  (l.trainableWeights ++ l.nonTrainableWeights).any fun i =>
    strContains (Store.read st i).name "cluster_centroids_tf" ||
    strContains (Store.read st i).name "pulling_indices_tf" ||
    strContains (Store.read st i).name "ori_weights_vars_tf"

/-- Exactly one of three booleans is `true`. -/
def exactlyOneOfThree (a b c : Bool) : Bool :=
  (a && !b && !c) || (!a && b && !c) || (!a && !b && c)

/-- Is the outcome the `ValueError('Expected layer to stripped to contain
clustering nodes')` of line 112? -/
def raisesMissingClusteringState (r : Except PyErr (WLayer × Store)) : Bool :=
  match r with
  | .error .missingClusteringState => true
  | _ => false

/-- The errors the per-layer transform can actually produce: an
`UnboundLocalError` or a TensorFlow op failure. -/
def errFromLayerOps : PyErr → Bool
  | .unboundLocal _ => true
  | .tfOpError => true
  | _ => false

/-! ## Supporting lemmas -/

theorem tfGather_valid (params : List Int) (idxs : List Int)
    (hvalid : ∀ i ∈ idxs, 0 ≤ i ∧ i.toNat < params.length) :
    ∃ vs, tfGather params idxs = .ok vs ∧ vs.length = idxs.length ∧
      ∀ (p : Nat) (i : Int), idxs[p]? = some i → vs[p]? = params[i.toNat]? := by
  induction idxs with
  | nil =>
    refine ⟨[], rfl, rfl, fun p i h => ?_⟩
    simp at h
  | cons i rest ih =>
    obtain ⟨h0, hlt⟩ := hvalid i (List.mem_cons_self _ _)
    obtain ⟨vs, hok, hlen, hget⟩ :=
      ih (fun j hj => hvalid j (List.mem_cons_of_mem _ hj))
    refine ⟨params.get ⟨i.toNat, hlt⟩ :: vs, ?_, by simp [hlen], ?_⟩
    · show tfGather params (i :: rest) = _
      rw [tfGather, if_pos h0, List.get?_eq_get hlt, hok]
    · intro p j hp
      cases p with
      | zero =>
        simp at hp
        subst hp
        simp [List.getElem?_eq_getElem hlt]
      | succ q =>
        simp at hp ⊢
        exact hget q j (by simpa using hp)

theorem Store.read_set (st : Store) (i j : VarId) (v : Var) :
    Store.read (st.set i v) j = if i = j ∧ i < st.length then v else st.read j := by
  unfold Store.read
  by_cases hij : i = j
  · subst hij
    by_cases hlt : i < st.length
    · simp [List.getElem?_set_self hlt, hlt]
    · have hnone : st[i]? = none := by
        rw [List.getElem?_eq_none_iff]
        exact Nat.le_of_not_lt hlt
      simp [List.getElem?_set_self', hnone, hlt]
  · simp [List.getElem?_set_ne hij, hij]

theorem Store.assign_ok {st st' : Store} {i : VarId} {t : Tensor}
    (h : st.assign i t = .ok st') :
    st' = st.set i { st.read i with value := t } := by
  unfold Store.assign at h
  split at h
  · injection h with h
    exact h.symm
  · simp at h

theorem Store.length_assign {st st' : Store} {i : VarId} {t : Tensor}
    (h : st.assign i t = .ok st') : st'.length = st.length := by
  rw [Store.assign_ok h, List.length_set]

theorem Store.name_assign {st st' : Store} {i : VarId} {t : Tensor}
    (h : st.assign i t = .ok st') (j : VarId) :
    (st'.read j).name = (st.read j).name := by
  rw [Store.assign_ok h, Store.read_set]
  split
  · rename_i hc
    rw [hc.1]
  · rfl

theorem Store.read_assign_ne {st st' : Store} {i : VarId} {t : Tensor}
    (h : st.assign i t = .ok st') (j : VarId) (hne : i ≠ j) :
    st'.read j = st.read j := by
  rw [Store.assign_ok h, Store.read_set, if_neg]
  intro hc
  exact hne hc.1

theorem assignKernels_ok_length {t : Tensor} {ids : List VarId} :
    ∀ {st st' : Store}, assignKernels st t ids = .ok st' → st'.length = st.length := by
  induction ids with
  | nil =>
    intro st st' h
    unfold assignKernels at h
    injection h with h
    rw [h]
  | cons i rest ih =>
    intro st st' h
    unfold assignKernels at h
    split at h
    · split at h
      · rename_i st1 hass
        exact (ih h).trans (Store.length_assign hass)
      · simp at h
    · exact ih h

theorem assignKernels_ok_name {t : Tensor} {ids : List VarId} :
    ∀ {st st' : Store}, assignKernels st t ids = .ok st' →
      ∀ j, (st'.read j).name = (st.read j).name := by
  induction ids with
  | nil =>
    intro st st' h j
    unfold assignKernels at h
    injection h with h
    rw [h]
  | cons i rest ih =>
    intro st st' h j
    unfold assignKernels at h
    split at h
    · split at h
      · rename_i st1 hass
        exact (ih h j).trans (Store.name_assign hass j)
      · simp at h
    · exact ih h j

theorem assignKernels_ok_notmem {t : Tensor} {ids : List VarId} :
    ∀ {st st' : Store}, assignKernels st t ids = .ok st' →
      ∀ j, j ∉ ids → st'.read j = st.read j := by
  induction ids with
  | nil =>
    intro st st' h j _
    unfold assignKernels at h
    injection h with h
    rw [h]
  | cons i rest ih =>
    intro st st' h j hj
    have hji : i ≠ j := fun hc => hj (hc ▸ List.mem_cons_self _ _)
    have hjr : j ∉ rest := fun hc => hj (List.mem_cons_of_mem _ hc)
    unfold assignKernels at h
    split at h
    · split at h
      · rename_i st1 hass
        exact (ih h j hjr).trans (Store.read_assign_ne hass j hji)
      · simp at h
    · exact ih h j hjr

theorem assignKernels_ok_nonkernel {t : Tensor} {ids : List VarId} :
    ∀ {st st' : Store}, assignKernels st t ids = .ok st' →
      ∀ j, strContains (st.read j).name "kernel:0" = false → st'.read j = st.read j := by
  induction ids with
  | nil =>
    intro st st' h j _
    unfold assignKernels at h
    injection h with h
    rw [h]
  | cons i rest ih =>
    intro st st' h j hj
    unfold assignKernels at h
    split at h
    · rename_i hname
      split at h
      · rename_i st1 hass
        have hji : i ≠ j := by
          intro hc
          rw [hc, hj] at hname
          exact Bool.false_ne_true hname
        have hj1 : strContains (st1.read j).name "kernel:0" = false := by
          rw [Store.name_assign hass j]
          exact hj
        exact (ih h j hj1).trans (Store.read_assign_ne hass j hji)
      · simp at h
    · exact ih h j hj

theorem assignKernels_ok_value {t : Tensor} {ids : List VarId} :
    ∀ {st st' : Store}, assignKernels st t ids = .ok st' →
      ∀ k, ((k ∈ ids ∧ k < st.length ∧
               strContains (st.read k).name "kernel:0" = true) ∨
            (st.read k).value = t) →
      (st'.read k).value = t := by
  induction ids with
  | nil =>
    intro st st' h k hk
    unfold assignKernels at h
    injection h with h
    rcases hk with ⟨hmem, _, _⟩ | hval
    · exact absurd hmem (List.not_mem_nil k)
    · rw [h] at hval
      exact hval
  | cons i rest ih =>
    intro st st' h k hk
    unfold assignKernels at h
    split at h
    · rename_i hname
      split at h
      · rename_i st1 hass
        apply ih h
        rcases hk with ⟨hmem, hlt, hker⟩ | hval
        · rcases List.mem_cons.mp hmem with rfl | hmem'
          · right
            rw [Store.assign_ok hass, Store.read_set, if_pos ⟨rfl, hlt⟩]
          · left
            refine ⟨hmem', ?_, ?_⟩
            · rw [Store.length_assign hass]
              exact hlt
            · rw [Store.name_assign hass k]
              exact hker
        · right
          by_cases hki : i = k
          · subst hki
            rw [Store.assign_ok hass, Store.read_set]
            split
            · rfl
            · exact hval
          · rw [Store.read_assign_ne hass k hki]
            exact hval
      · simp at h
    · rename_i hname
      apply ih h
      rcases hk with ⟨hmem, hlt, hker⟩ | hval
      · rcases List.mem_cons.mp hmem with rfl | hmem'
        · exact absurd hker hname
        · exact Or.inl ⟨hmem', hlt, hker⟩
      · exact Or.inr hval

theorem tfGather_error {params idxs : List Int} {e : PyErr}
    (h : tfGather params idxs = .error e) : e = .tfOpError := by
  induction idxs with
  | nil => simp [tfGather] at h
  | cons i rest ih =>
    unfold tfGather at h
    split at h
    · simp at h
    · rename_i hmatch
      injection h with h
      exact h.symm

theorem getClusteredWeights_error {ci cc : Tensor} {e : PyErr}
    (h : getClusteredWeights ci cc = .error e) : e = .tfOpError := by
  unfold getClusteredWeights tfFlatten tfReshape at h
  dsimp only at h
  cases hg : tfGather cc.data ci.data with
  | error e' =>
    rw [hg] at h
    simp only [bind, Except.bind] at h
    injection h with h
    exact h ▸ tfGather_error hg
  | ok vs =>
    rw [hg] at h
    simp only [bind, Except.bind] at h
    split at h
    · simp at h
    · injection h with h
      exact h.symm

theorem Store.assign_error {st : Store} {i : VarId} {t : Tensor} {e : PyErr}
    (h : st.assign i t = .error e) : e = .tfOpError := by
  unfold Store.assign at h
  split at h
  · simp at h
  · injection h with h
    exact h.symm

theorem assignKernels_error {t : Tensor} {ids : List VarId} :
    ∀ {st : Store} {e : PyErr}, assignKernels st t ids = .error e → e = .tfOpError := by
  induction ids with
  | nil =>
    intro st e h
    simp [assignKernels] at h
  | cons i rest ih =>
    intro st e h
    unfold assignKernels at h
    split at h
    · split at h
      · exact ih h
      · rename_i e' hass
        injection h with h
        exact h ▸ Store.assign_error hass
    · exact ih h

theorem stripLayerOps_error {st : Store} {l : WLayer} {e : PyErr}
    (h : stripLayerOps st l = .error e) : errFromLayerOps e = true := by
  unfold stripLayerOps at h
  split at h
  · simp at h
  · split at h
    · simp at h
    · split at h
      · split at h
        · injection h with h
          rw [← h]
          rfl
        · injection h with h
          rw [← h]
          rfl
        · split at h
          · rename_i hcond
            simp [isNoneVar] at hcond
          · split at h
            · rename_i e' hg
              injection h with h
              rw [← h, getClusteredWeights_error hg]
              rfl
            · split at h
              · rename_i e' hass
                injection h with h
                rw [← h, assignKernels_error hass]
                rfl
              · simp at h
      · simp at h

mutual

theorem stripOps_error : ∀ (k : KLayer) (st : Store) (e : PyErr),
    stripOps st k = .error e → errFromLayerOps e = true
  | .plain l, st, e, h => by
    unfold stripOps at h
    split at h
    · simp at h
    · rename_i e' hl
      injection h with h
      exact h ▸ stripLayerOps_error hl
  | .model layers, st, e, h => by
    unfold stripOps at h
    split at h
    · simp at h
    · rename_i e' hl
      injection h with h
      exact h ▸ stripOpsList_error layers st e' hl

theorem stripOpsList_error : ∀ (ks : List KLayer) (st : Store) (e : PyErr),
    stripOpsList st ks = .error e → errFromLayerOps e = true
  | [], st, e, h => by simp [stripOpsList] at h
  | k :: rest, st, e, h => by
    unfold stripOpsList at h
    split at h
    · rename_i k' st1 hk
      split at h
      · simp at h
      · rename_i e' hrest
        injection h with h
        exact h ▸ stripOpsList_error rest st1 e' hrest
    · rename_i e' hk
      injection h with h
      exact h ▸ stripOps_error k st e' hk

end

theorem foldl_lastMatch {α : Type} (p : α → Bool) :
    ∀ (l : List α) (a : Option α),
      l.foldl (fun acc i => if p i then some i else acc) a =
        match (l.filter p).getLast? with
        | some x => some x
        | none => a
  | [], a => rfl
  | i :: rest, a => by
    rw [List.foldl_cons, foldl_lastMatch p rest]
    by_cases hp : p i
    · rw [List.filter_cons_of_pos hp, if_pos hp]
      cases hrest : (rest.filter p).getLast? with
      | none =>
        rw [List.getLast?_eq_none_iff] at hrest
        rw [hrest]
        rfl
      | some x =>
        cases hfil : rest.filter p with
        | nil => rw [hfil] at hrest; simp at hrest
        | cons y ys =>
          rw [hfil] at hrest
          rw [List.getLast?_cons_cons, hrest]
    · rw [List.filter_cons_of_neg (by simp [hp]), if_neg (by simp [hp])]

/-- The `for` loops of lines 105-110 select the last matching variable in the
collection's iteration order. -/
theorem lastMatch_eq_getLast (st : Store) (pat : String) (vars : List VarId) :
    lastMatch st pat vars =
      (vars.filter fun i => strContains (Store.read st i).name pat).getLast? := by
  unfold lastMatch
  rw [foldl_lastMatch]
  cases (vars.filter fun i => strContains (Store.read st i).name pat).getLast? <;> rfl

/-- When the per-layer transform succeeds on a wrapped, non-depthwise,
conv/dense layer, it did so by finding last-match index and centroid
variables, materializing the clustered weight, assigning it to the kernel
entries, and filtering the two variable collections. -/
theorem stripLayerOps_ok_match (st : Store) (l : WLayer) (nm : String)
    (hinner : l.innerName = some nm)
    (hdepth : strContains nm "depthwise" = false)
    (htype : (l.innerIsConv2D || l.innerIsDense) = true)
    (l' : WLayer) (st' : Store)
    (hrun : stripLayerOps st l = .ok (l', st')) :
    ∃ ci cc w,
      lastMatch st "pulling_indices_tf" l.nonTrainableWeights = some ci ∧
      lastMatch st "cluster_centroids_tf" l.trainableWeights = some cc ∧
      getClusteredWeights (Store.read st ci).value (Store.read st cc).value = .ok w ∧
      assignKernels st w l.weights = .ok st' ∧
      l' = { l with
        trainableWeights := l.trainableWeights.filter fun v =>
          !(strContains (Store.read st' v).name "cluster_centroids_tf" ||
            strContains (Store.read st' v).name "ori_weights_vars_tf"),
        nonTrainableWeights := l.nonTrainableWeights.filter fun v =>
          !(strContains (Store.read st' v).name "pulling_indices_tf") } := by
  unfold stripLayerOps at hrun
  rw [hinner] at hrun
  simp only [hdepth, htype, Bool.false_eq_true, if_false, if_true] at hrun
  split at hrun
  · simp at hrun
  · simp at hrun
  · rename_i ci cc hci hcc
    simp only [isNoneVar, Bool.or_self, Bool.false_eq_true, if_false] at hrun
    split at hrun
    · simp at hrun
    · rename_i w hw
      split at hrun
      · simp at hrun
      · rename_i st2 hass
        injection hrun with hrun
        rw [Prod.mk.injEq] at hrun
        obtain ⟨hl, hst⟩ := hrun
        subst hst
        refine ⟨ci, cc, w, hci, hcc, hw, hass, ?_⟩
        rw [hinner]
        exact hl.symm

/-! ## Claim theorems -/

/-- C1: for every index tensor `I` whose entries are non-negative integers all
strictly less than the length of the 1-dimensional centroid tensor `C`, the
weight materializer `_get_clustered_weights` returns a tensor with the same
shape as `I` in which every position `p` holds `C[I[p]]`. -/
theorem C1_materializer_correct (I C : Tensor)
    (hwf : I.data.length = I.shape.prod)
    (_hC : C.shape = [C.data.length])
    (hvalid : ∀ i ∈ I.data, 0 ≤ i ∧ i.toNat < C.data.length) :
    ∃ r, getClusteredWeights I C = .ok r ∧ r.shape = I.shape ∧
      r.data.length = I.data.length ∧
      ∀ (p : Nat) (idx : Int), I.data[p]? = some idx →
        r.data[p]? = C.data[idx.toNat]? := by
  obtain ⟨vs, hok, hlen, hget⟩ := tfGather_valid C.data I.data hvalid
  refine ⟨⟨I.shape, vs⟩, ?_, rfl, hlen, hget⟩
  unfold getClusteredWeights tfFlatten tfReshape
  simp only [hok, Except.bind, Except.pure, Except.ok.injEq, pure, bind]
  rw [if_pos (hlen.trans hwf)]

/-- C1 witness: the spec's own example, `C = [10, 20, 30]`,
`I = [[0,1],[2,0]]`. -/
theorem C1_materializer_correct_witness :
    ∃ r, getClusteredWeights { shape := [2, 2], data := [0, 1, 2, 0] }
        { shape := [3], data := [10, 20, 30] } = .ok r ∧
      r.shape = [2, 2] ∧ r.data.length = 4 ∧
      ∀ (p : Nat) (idx : Int), ([0, 1, 2, 0] : List Int)[p]? = some idx →
        r.data[p]? = ([10, 20, 30] : List Int)[idx.toNat]? :=
  C1_materializer_correct ⟨[2, 2], [0, 1, 2, 0]⟩ ⟨[3], [10, 20, 30]⟩
    (by decide) (by decide) (by decide)

/-- C7: a layer that does not meet the wrap/name/type criteria — no inner
wrapped layer, or a `depthwise` inner name, or an inner layer that is neither
`Conv2D` nor `Dense` — is returned by the per-layer transform as the very same
object, with the variable heap (hence every variable and its value)
untouched. -/
theorem C7_passthrough (st : Store) (l : WLayer)
    (h : l.innerName = none ∨
         (∃ nm, l.innerName = some nm ∧ strContains nm "depthwise" = true) ∨
         (l.innerIsConv2D = false ∧ l.innerIsDense = false)) :
    stripLayerOps st l = .ok (l, st) := by
  unfold stripLayerOps
  rcases h with h | ⟨nm, hnm, hd⟩ | ⟨hc, hd⟩
  · rw [h]
  · rw [hnm]
    simp [hd]
  · cases hnm : l.innerName with
    | none => rfl
    | some nm =>
      by_cases hdep : strContains nm "depthwise" = true
      · simp [hdep]
      · simp [hdep, hc, hd]

/-- C7 witness: a plain (unwrapped) layer holding one variable is passed
through unchanged. -/
theorem C7_passthrough_witness :
    stripLayerOps [{ name := "act/bias:0", value := { shape := [1], data := [5] } }]
      { lid := 7, innerName := none, innerIsConv2D := false, innerIsDense := false,
        trainableWeights := [0], nonTrainableWeights := [], weights := [0],
        quantState := 3 } =
    .ok ({ lid := 7, innerName := none, innerIsConv2D := false, innerIsDense := false,
           trainableWeights := [0], nonTrainableWeights := [], weights := [0],
           quantState := 3 },
         [{ name := "act/bias:0", value := { shape := [1], data := [5] } }]) :=
  C7_passthrough _ _ (Or.inl rfl)

/-- C2: for a quantization-aware wrapper whose inner layer is a non-depthwise
`Conv2D`/`Dense` layer, when the per-layer transform succeeds, the kernel
variable's value afterwards equals `_get_clustered_weights` applied to the
layer's pre-strip `pulling_indices_tf` and `cluster_centroids_tf` variables. -/
theorem C2_kernel_materialized (st : Store) (l : WLayer) (nm : String)
    (hinner : l.innerName = some nm)
    (hdepth : strContains nm "depthwise" = false)
    (htype : (l.innerIsConv2D || l.innerIsDense) = true)
    (hlive : ∀ k ∈ l.weights, k < st.length)
    (ci cc : VarId)
    (hci : lastMatch st "pulling_indices_tf" l.nonTrainableWeights = some ci)
    (hcc : lastMatch st "cluster_centroids_tf" l.trainableWeights = some cc)
    (w : Tensor)
    (hw : getClusteredWeights (st.read ci).value (st.read cc).value = .ok w)
    (l' : WLayer) (st' : Store)
    (hrun : stripLayerOps st l = .ok (l', st')) :
    ∀ k ∈ l.weights, strContains (st.read k).name "kernel:0" = true →
      (st'.read k).value = w := by
  unfold stripLayerOps at hrun
  rw [hinner] at hrun
  simp only [hdepth, htype, hci, hcc, isNoneVar, Bool.or_self, Bool.false_eq_true,
    if_false, if_true, hw] at hrun
  split at hrun
  · exact absurd hrun (by simp)
  · rename_i st2 hass
    intro k hk hker
    have hst : st' = st2 := by
      injection hrun with hrun
      exact (congrArg Prod.snd hrun).symm
    rw [hst]
    exact assignKernels_ok_value hass k (Or.inl ⟨hk, hlive k hk, hker⟩)

/-- C2 witness: stripping the concrete dense layer writes
`[[10,20],[30,10]]` into its kernel variable. -/
theorem C2_kernel_materialized_witness :
    (Store.read egStore' 0).value = egTensor :=
  C2_kernel_materialized egStore egLayer "dense" rfl (by decide) rfl
    (by decide) 2 1 (by decide) (by decide) egTensor rfl egLayer' egStore' rfl
    0 (by decide) (by decide)

/-- C3 counterexample: `strip_clustering_cqat` accepts the bare layer
`cexObj` (it is a Layer instance), but because that layer has no inner
wrapped layer it is passed through unchanged, and the returned layer still
holds its `cluster_centroids_tf`-named variable. -/
theorem C3_retains_marker_counterexample :
    cexObj.isLayer = true ∧
    strip_clustering_cqat cexStore cexObj = .ok (.layer cexLayer, cexStore) ∧
    layerRetainsClusterVars cexStore cexLayer = true :=
  ⟨rfl, rfl, by decide⟩

/-- C3 amended: for every layer the matching branch of the per-layer
transform actually processes (wrapped, non-depthwise, conv/dense), the
resulting trainable collection retains no variable whose name contains
`cluster_centroids_tf` or `ori_weights_vars_tf` and the resulting
non-trainable collection retains none containing `pulling_indices_tf`;
layers not meeting the criteria are passed through and may retain such
variables. -/
theorem C3_processed_layer_drops_markers (st : Store) (l : WLayer) (nm : String)
    (hinner : l.innerName = some nm)
    (hdepth : strContains nm "depthwise" = false)
    (htype : (l.innerIsConv2D || l.innerIsDense) = true)
    (l' : WLayer) (st' : Store)
    (hrun : stripLayerOps st l = .ok (l', st')) :
    (∀ i ∈ l'.trainableWeights,
        strContains (Store.read st' i).name "cluster_centroids_tf" = false ∧
        strContains (Store.read st' i).name "ori_weights_vars_tf" = false) ∧
    (∀ i ∈ l'.nonTrainableWeights,
        strContains (Store.read st' i).name "pulling_indices_tf" = false) := by
  obtain ⟨ci, cc, w, hci, hcc, hw, hass, hl⟩ :=
    stripLayerOps_ok_match st l nm hinner hdepth htype l' st' hrun
  subst hl
  constructor
  · intro i hi
    have hp := (List.mem_filter.mp hi).2
    simp only [Bool.not_eq_eq_eq_not, Bool.not_true, Bool.or_eq_false_iff] at hp
    exact hp
  · intro i hi
    have hp := (List.mem_filter.mp hi).2
    simpa using hp

/-- C3 amended witness: in the stripped concrete layer, the surviving
trainable reference (the kernel) carries neither marker. -/
theorem C3_processed_layer_drops_markers_witness :
    strContains (Store.read egStore' 0).name "cluster_centroids_tf" = false ∧
    strContains (Store.read egStore' 0).name "ori_weights_vars_tf" = false :=
  (C3_processed_layer_drops_markers egStore egLayer "dense" rfl (by decide) rfl
    egLayer' egStore' rfl).1 0 (by decide)

/-- C4: the claim says a missing centroid/index variable raises the
`ValueError('Expected layer to stripped to contain clustering nodes')`.  In
the code, `clst_centroids` / `clst_indices` are never initialized before the
scanning loops, so when a scan finds no match the later `is None` test raises
`UnboundLocalError` instead, and the `ValueError` is unreachable: when both
locals are bound they hold variable objects, never `None`. -/
theorem C4_missing_state_raises_unbound_local :
    stripLayerOps egStore cbLayer = .error (.unboundLocal "clst_centroids") ∧
    stripLayerOps egStore cbLayerNoIdx = .error (.unboundLocal "clst_indices") ∧
    ∀ (st : Store) (l : WLayer),
      raisesMissingClusteringState (stripLayerOps st l) = false := by
  refine ⟨rfl, rfl, fun st l => ?_⟩
  cases hr : stripLayerOps st l with
  | ok v => rfl
  | error e =>
    have he := stripLayerOps_error hr
    cases e <;> simp_all [errFromLayerOps, raisesMissingClusteringState]

/-- C5 counterexample: an unbuilt `Sequential` model (`_is_graph_network`
still false) is a valid input — a Model instance — on which `_type_model`
reports both the sequential/functional and the subclassed category. -/
theorem C5_two_categories_counterexample :
    seqUnbuilt.isModel = true ∧
    typeModel seqUnbuilt = (true, false, true) ∧
    exactlyOneOfThree (typeModel seqUnbuilt).1 (typeModel seqUnbuilt).2.1
      (typeModel seqUnbuilt).2.2 = false :=
  ⟨rfl, rfl, rfl⟩

/-- C5 amended: for every valid input (a Model or a Layer, with the Keras
class hierarchy `Model ⊆ Layer`), at least one of the three categories
holds, and they are mutually exclusive unless the input is a Sequential
model whose `_is_graph_network` flag is false, in which case the
sequential/functional and subclassed categories are reported together. -/
theorem C5_classification_amended (o : TopObj)
    (hml : o.isModel = true → o.isLayer = true)
    (hvalid : o.isModel = true ∨ o.isLayer = true) :
    ((typeModel o).1 || (typeModel o).2.1 || (typeModel o).2.2) = true ∧
    ((o.isSequential && !o.isGraphNetwork) = false →
      exactlyOneOfThree (typeModel o).1 (typeModel o).2.1 (typeModel o).2.2 = true) := by
  rcases o with ⟨oid, cn, im, il, isq, ig, ls, sl, ma⟩
  simp only [typeModel, exactlyOneOfThree] at *
  cases im <;> cases il <;> cases isq <;> cases ig <;> simp_all

/-- C5 amended witness: a bare layer is classified in exactly one category. -/
theorem C5_classification_amended_witness :
    ((typeModel cexObj).1 || (typeModel cexObj).2.1 || (typeModel cexObj).2.2) = true ∧
    exactlyOneOfThree (typeModel cexObj).1 (typeModel cexObj).2.1 (typeModel cexObj).2.2 = true := by
  obtain ⟨h1, h2⟩ := C5_classification_amended cexObj (by decide) (Or.inr rfl)
  exact ⟨h1, h2 (by decide)⟩

/-- C6: `strip_clustering_cqat` raises the
`ValueError('Expected to_strip to be a ...')` reporting the object received
exactly when its argument is neither a `tf.keras.Model` nor a
`tf.keras.layers.Layer` instance; on any Model or Layer argument this error
is never raised. -/
theorem strip_error_cases (st : Store) (o : TopObj) (e : PyErr)
    (h : strip_clustering_cqat st o = .error e) :
    (e = .invalidInputType o.className ∧ o.isModel = false ∧ o.isLayer = false) ∨
    e = .unsupportedInputType o.className ∨ errFromLayerOps e = true := by
  unfold strip_clustering_cqat at h
  by_cases hc : (!o.isModel && !o.isLayer) = true
  · rw [if_pos hc] at h
    injection h with h
    refine Or.inl ⟨h.symm, ?_⟩
    simpa [Bool.and_eq_true, Bool.not_eq_true'] using hc
  · rw [if_neg hc] at h
    dsimp only at h
    by_cases h1 : (typeModel o).1 = true
    · rw [if_pos h1] at h
      cases hsl : stripOpsList st o.layers with
      | ok v =>
        rcases v with ⟨ls2, st2⟩
        rw [hsl] at h
        simp at h
      | error e' =>
        rw [hsl] at h
        simp only [Except.error.injEq] at h
        exact Or.inr (Or.inr (h ▸ stripOpsList_error _ _ _ hsl))
    · rw [if_neg h1] at h
      by_cases h2 : (typeModel o).2.1 = true
      · rw [if_pos h2] at h
        by_cases hL : o.isLayer = true
        · rw [if_pos hL] at h
          cases hso : stripLayerOps st o.selfLayer with
          | ok v =>
            rcases v with ⟨l2, st2⟩
            rw [hso] at h
            simp at h
          | error e' =>
            rw [hso] at h
            simp only [Except.error.injEq] at h
            exact Or.inr (Or.inr (h ▸ stripLayerOps_error hso))
        · rw [if_neg hL] at h
          simp at h
      · rw [if_neg h2] at h
        by_cases h3 : (typeModel o).2.2 = true
        · rw [if_pos h3] at h
          cases hsl : stripOpsList st o.modelAttr.selfTrackedTrackables with
          | ok v =>
            rcases v with ⟨ls2, st2⟩
            rw [hsl] at h
            simp at h
          | error e' =>
            rw [hsl] at h
            simp only [Except.error.injEq] at h
            exact Or.inr (Or.inr (h ▸ stripOpsList_error _ _ _ hsl))
        · rw [if_neg h3] at h
          simp only [Except.error.injEq] at h
          exact Or.inr (Or.inl h.symm)

/-- C6: `strip_clustering_cqat` raises the
`ValueError('Expected to_strip to be a ...')` — reporting the object it
received — if and only if its argument is neither a `tf.keras.Model` nor a
`tf.keras.layers.Layer` instance; on any Model or Layer argument this error
is never raised. -/
theorem C6_invalid_input_iff (st : Store) (o : TopObj) :
    (∃ s, strip_clustering_cqat st o = .error (.invalidInputType s)) ↔
      (o.isModel = false ∧ o.isLayer = false) := by
  constructor
  · rintro ⟨s, hs⟩
    rcases strip_error_cases st o _ hs with ⟨_, hm, hl⟩ | he | herr
    · exact ⟨hm, hl⟩
    · simp at he
    · simp [errFromLayerOps] at herr
  · rintro ⟨hm, hl⟩
    refine ⟨o.className, ?_⟩
    unfold strip_clustering_cqat
    simp [hm, hl]

/-- C8: on a processed wrapped conv/dense layer, the wrapper object and its
quantization bookkeeping survive (every field except the two variable
collections is unchanged, including the derived full weight list), the
kernel is overwritten in place (the heap keeps the same number of variable
objects, every variable keeps its name, and only kernel-named variables
referenced from the full weight list change at all), and the two collections
are replaced by filtered versions of themselves. -/
theorem C8_wrapper_frame (st : Store) (l : WLayer) (nm : String)
    (hinner : l.innerName = some nm)
    (hdepth : strContains nm "depthwise" = false)
    (htype : (l.innerIsConv2D || l.innerIsDense) = true)
    (l' : WLayer) (st' : Store)
    (hrun : stripLayerOps st l = .ok (l', st')) :
    l'.lid = l.lid ∧ l'.innerName = l.innerName ∧
    l'.innerIsConv2D = l.innerIsConv2D ∧ l'.innerIsDense = l.innerIsDense ∧
    l'.quantState = l.quantState ∧ l'.weights = l.weights ∧
    st'.length = st.length ∧
    (∀ j, (Store.read st' j).name = (Store.read st j).name) ∧
    (∀ j, j ∉ l.weights → Store.read st' j = Store.read st j) ∧
    (∀ j, strContains (Store.read st j).name "kernel:0" = false →
        Store.read st' j = Store.read st j) ∧
    l'.trainableWeights = l.trainableWeights.filter (fun v =>
      !(strContains (Store.read st' v).name "cluster_centroids_tf" ||
        strContains (Store.read st' v).name "ori_weights_vars_tf")) ∧
    l'.nonTrainableWeights = l.nonTrainableWeights.filter (fun v =>
      !(strContains (Store.read st' v).name "pulling_indices_tf")) := by
  obtain ⟨ci, cc, w, hci, hcc, hw, hass, hl⟩ :=
    stripLayerOps_ok_match st l nm hinner hdepth htype l' st' hrun
  subst hl
  exact ⟨rfl, rfl, rfl, rfl, rfl, rfl,
    assignKernels_ok_length hass, assignKernels_ok_name hass,
    assignKernels_ok_notmem hass, assignKernels_ok_nonkernel hass, rfl, rfl⟩

/-- C8 witness: on the concrete layer, identity/quantization state and the
full weight list survive, the heap keeps its size, the centroid variable
(reference 1) is untouched, and so is an unreferenced variable (9). -/
theorem C8_wrapper_frame_witness :
    egLayer'.lid = egLayer.lid ∧ egLayer'.quantState = egLayer.quantState ∧
    egLayer'.weights = egLayer.weights ∧
    egStore'.length = egStore.length ∧
    (Store.read egStore' 1).name = (Store.read egStore 1).name ∧
    Store.read egStore' 9 = Store.read egStore 9 ∧
    Store.read egStore' 1 = Store.read egStore 1 := by
  obtain ⟨h1, _, _, _, h5, h6, h7, h8, h9, h10, _, _⟩ :=
    C8_wrapper_frame egStore egLayer "dense" rfl (by decide) rfl egLayer' egStore' rfl
  exact ⟨h1, h5, h6, h7, h8 1, h9 9 (by decide), h10 1 (by decide)⟩

/-- C9: on a subclassed model (a Model that is neither Sequential nor a
graph network), `strip_clustering_cqat` reaches into the input's `.model`
attribute, replaces each entry of that inner model's tracked-sublayer list
with the per-layer transform's result, and returns that inner model — the
object owning the tracked list, not necessarily the top-level input. -/
theorem C9_subclassed_returns_inner (st : Store) (o : TopObj)
    (hm : o.isModel = true) (hseq : o.isSequential = false)
    (hg : o.isGraphNetwork = false)
    (tracked' : List KLayer) (st' : Store)
    (h : stripOpsList st o.modelAttr.selfTrackedTrackables = .ok (tracked', st')) :
    strip_clustering_cqat st o =
      .ok (.subModel { oid := o.modelAttr.oid,
                       selfTrackedTrackables := tracked' }, st') := by
  unfold strip_clustering_cqat typeModel
  rw [hm, hseq, hg]
  simp only [Bool.not_true, Bool.false_and, Bool.and_true, Bool.false_eq_true,
    if_false, Bool.or_self, Bool.and_false, Bool.not_false, Bool.true_and, if_true]
  rw [h]

/-- C9 witness: stripping `subclassedObj` returns the `.model` attribute's
object (identity 42, not the input's identity 11) with its tracked list
transformed. -/
theorem C9_subclassed_returns_inner_witness :
    strip_clustering_cqat [] subclassedObj =
      .ok (.subModel { oid := 42, selfTrackedTrackables := [.plain plainLayer] }, []) :=
  C9_subclassed_returns_inner [] subclassedObj rfl rfl rfl [.plain plainLayer] [] rfl

/-- C10: when several trainable variables carry the `cluster_centroids_tf`
marker (or several non-trainable ones the `pulling_indices_tf` marker), the
scanning loops leave the *last* match in iteration order bound, the
materializer runs on those last matches, and the assignment loop writes the
materialized tensor into *every* entry of the full weight list whose name
contains `kernel:0`, not only one. -/
theorem C10_last_match_wins_all_kernels_assigned (st : Store) (l : WLayer) (nm : String)
    (hinner : l.innerName = some nm)
    (hdepth : strContains nm "depthwise" = false)
    (htype : (l.innerIsConv2D || l.innerIsDense) = true)
    (hlive : ∀ k ∈ l.weights, k < st.length)
    (_hmany : 2 ≤ (l.trainableWeights.filter fun i =>
                strContains (Store.read st i).name "cluster_centroids_tf").length ∨
             2 ≤ (l.nonTrainableWeights.filter fun i =>
                strContains (Store.read st i).name "pulling_indices_tf").length)
    (ci cc : VarId)
    (hci : (l.nonTrainableWeights.filter fun i =>
              strContains (Store.read st i).name "pulling_indices_tf").getLast? = some ci)
    (hcc : (l.trainableWeights.filter fun i =>
              strContains (Store.read st i).name "cluster_centroids_tf").getLast? = some cc)
    (w : Tensor)
    (hw : getClusteredWeights (Store.read st ci).value (Store.read st cc).value = .ok w)
    (l' : WLayer) (st' : Store)
    (hrun : stripLayerOps st l = .ok (l', st')) :
    ∀ k ∈ l.weights, strContains (Store.read st k).name "kernel:0" = true →
      (Store.read st' k).value = w := by
  obtain ⟨ci', cc', w', hci', hcc', hw', hass, hl⟩ :=
    stripLayerOps_ok_match st l nm hinner hdepth htype l' st' hrun
  rw [lastMatch_eq_getLast, hci] at hci'
  rw [lastMatch_eq_getLast, hcc] at hcc'
  obtain rfl := Option.some.inj hci'
  obtain rfl := Option.some.inj hcc'
  rw [hw] at hw'
  injection hw' with hw'
  subst hw'
  intro k hk hker
  exact assignKernels_ok_value hass k (Or.inl ⟨hk, hlive k hk, hker⟩)

/-- C10 witness: with two centroid-marked variables (references 1 then 2)
and two kernel-named weight entries (references 0 and 4), both kernels end
up holding the tensor materialized from the *last* centroid variable. -/
theorem C10_last_match_wins_all_kernels_assigned_witness :
    (Store.read c10Store' 0).value = egTensor ∧
    (Store.read c10Store' 4).value = egTensor := by
  have h := C10_last_match_wins_all_kernels_assigned c10Store c10Layer "dense"
    rfl (by decide) rfl (by decide) (Or.inl (by decide)) 3 2 (by decide)
    (by decide) egTensor rfl c10Layer' c10Store' rfl
  exact ⟨h 0 (by decide) (by decide), h 4 (by decide) (by decide)⟩
